import Mathlib

/-!
Shallow embedding of the URL-shortening service in `src/app.py`
(SANTHOSH-VJ/url-saas) and proofs about it.

Conventions of the embedding:
* Byte strings are `List Nat` with every element `< 256` by construction.
* Machine 32-bit words are `Nat` reduced with `% 2^32` (`w32`).
* Timestamps are `Int`, measured in whole minutes (every duration the
  program adds — hours, days, custom minutes — is a whole number of
  minutes, and the only operations on timestamps are `+` and `<`).
* Python library calls used by the source (`hashlib.sha256`,
  `base64.urlsafe_b64encode`, `re.match`, `int`, `str.replace`,
  `str.strip`, `urllib.parse.urlparse`) are modelled faithfully for the
  ASCII inputs they receive here; points where the model restricts to
  ASCII are noted at the definition.
-/

set_option maxRecDepth 100000

/-- Reduce a natural number to a 32-bit word, as Python's fixed-width
hash arithmetic does implicitly. -/
def w32 (x : Nat) : Nat := x % 4294967296

/-- Rotate a 32-bit word right by `n` bits. -/
def rotr32 (n x : Nat) : Nat := w32 (x / 2 ^ n + (x % 2 ^ n) * 2 ^ (32 - n))

/-- Logical shift right. -/
def shr32 (n x : Nat) : Nat := x / 2 ^ n

/-- SHA-256 compression state: eight 32-bit working variables. -/
structure Hsh where
  a : Nat
  b : Nat
  c : Nat
  d : Nat
  e : Nat
  f : Nat
  g : Nat
  h : Nat

/-- SHA-256 initial hash value (FIPS 180-4), written in decimal. -/
def shaH0 : Hsh :=
  ⟨1779033703, 3144134277, 1013904242, 2773480762,
   1359893119, 2600822924, 528734635, 1541459225⟩

/-- SHA-256 round constants (FIPS 180-4), written in decimal. -/
def shaK : List Nat :=
  [1116352408, 1899447441, 3049323471, 3921009573, 961987163,
   1508970993, 2453635748, 2870763221, 3624381080, 310598401,
   607225278, 1426881987, 1925078388, 2162078206, 2614888103,
   3248222580, 3835390401, 4022224774, 264347078, 604807628,
   770255983, 1249150122, 1555081692, 1996064986, 2554220882,
   2821834349, 2952996808, 3210313671, 3336571891, 3584528711,
   113926993, 338241895, 666307205, 773529912, 1294757372,
   1396182291, 1695183700, 1986661051, 2177026350, 2456956037,
   2730485921, 2820302411, 3259730800, 3345764771, 3516065817,
   3600352804, 4094571909, 275423344, 430227734, 506948616,
   659060556, 883997877, 958139571, 1322822218, 1537002063,
   1747873779, 1955562222, 2024104815, 2227730452, 2361852424,
   2428436474, 2756734187, 3204031479, 3329325298]

/-- Small sigma-0 message-schedule function. -/
def ssig0 (x : Nat) : Nat := rotr32 7 x ^^^ rotr32 18 x ^^^ shr32 3 x

/-- Small sigma-1 message-schedule function. -/
def ssig1 (x : Nat) : Nat := rotr32 17 x ^^^ rotr32 19 x ^^^ shr32 10 x

/-- Extend a 16-word block by one schedule word. -/
def sched1 (ws : List Nat) : List Nat :=
  let n := ws.length
  ws ++ [w32 (ssig1 (ws.getD (n - 2) 0) + ws.getD (n - 7) 0 +
              ssig0 (ws.getD (n - 15) 0) + ws.getD (n - 16) 0)]

/-- Full 64-word message schedule from a 16-word block. -/
def sched (ws : List Nat) : List Nat :=
  (List.range 48).foldl (fun acc _ => sched1 acc) ws

/-- One SHA-256 round: consume one (constant, schedule-word) pair. -/
def shaRound (s : Hsh) (kw : Nat × Nat) : Hsh :=
  let bs1 := rotr32 6 s.e ^^^ rotr32 11 s.e ^^^ rotr32 25 s.e
  let ch := (s.e &&& s.f) ^^^ ((s.e ^^^ 4294967295) &&& s.g)
  let t1 := w32 (s.h + bs1 + ch + kw.1 + kw.2)
  let bs0 := rotr32 2 s.a ^^^ rotr32 13 s.a ^^^ rotr32 22 s.a
  let mj := (s.a &&& s.b) ^^^ (s.a &&& s.c) ^^^ (s.b &&& s.c)
  let t2 := w32 (bs0 + mj)
  ⟨w32 (t1 + t2), s.a, s.b, s.c, w32 (s.d + t1), s.e, s.f, s.g⟩

/-- Big-endian 4-byte groups to 32-bit words. -/
def bytesToWords : List Nat → List Nat
  | b0 :: b1 :: b2 :: b3 :: rest =>
      (b0 * 16777216 + b1 * 65536 + b2 * 256 + b3) :: bytesToWords rest
  | _ => []

/-- Process one padded 64-byte block. -/
def processBlock (s : Hsh) (block : List Nat) : Hsh :=
  let t := (shaK.zip (sched (bytesToWords block))).foldl shaRound s
  ⟨w32 (s.a + t.a), w32 (s.b + t.b), w32 (s.c + t.c), w32 (s.d + t.d),
   w32 (s.e + t.e), w32 (s.f + t.f), w32 (s.g + t.g), w32 (s.h + t.h)⟩

/-- Process a padded message 64 bytes at a time; the fuel argument is
structural so the kernel can evaluate it, and `fuel = length` always
suffices since each step consumes 64 bytes. -/
def processBlocksF : Nat → Hsh → List Nat → Hsh
  | 0, s, _ => s
  | _ + 1, s, [] => s
  | n + 1, s, b :: bs =>
      processBlocksF n (processBlock s ((b :: bs).take 64)) ((b :: bs).drop 64)

/-- Process a padded message 64 bytes at a time. -/
def processBlocks (s : Hsh) (l : List Nat) : Hsh := processBlocksF l.length s l

/-- A 64-bit length field as 8 big-endian bytes. -/
def lenBytes (n : Nat) : List Nat :=
  [n / 2 ^ 56 % 256, n / 2 ^ 48 % 256, n / 2 ^ 40 % 256, n / 2 ^ 32 % 256,
   n / 2 ^ 24 % 256, n / 2 ^ 16 % 256, n / 2 ^ 8 % 256, n % 256]

/-- SHA-256 padding: append 0x80, zeros to 56 mod 64, then the bit length. -/
def padMsg (msg : List Nat) : List Nat :=
  msg ++ [128] ++ List.replicate ((119 - msg.length % 64) % 64) 0 ++ lenBytes (8 * msg.length)

/-- Serialize one 32-bit word big-endian. -/
def wordBytes (x : Nat) : List Nat :=
  [x / 16777216 % 256, x / 65536 % 256, x / 256 % 256, x % 256]

/-- Serialize the final state to the 32-byte digest. -/
def digestBytes (s : Hsh) : List Nat :=
  wordBytes s.a ++ wordBytes s.b ++ wordBytes s.c ++ wordBytes s.d ++
  wordBytes s.e ++ wordBytes s.f ++ wordBytes s.g ++ wordBytes s.h

/-- SHA-256 of a byte string, modelling Python's `hashlib.sha256(...).digest()`. -/
def sha256 (msg : List Nat) : List Nat :=
  digestBytes (processBlocks shaH0 (padMsg msg))

/-- UTF-8 encoding of one code point, modelling Python's `str.encode()`. -/
def utf8Bytes (c : Char) : List Nat :=
  let n := c.toNat
  if n < 128 then [n]
  else if n < 2048 then [192 + n / 64, 128 + n % 64]
  else if n < 65536 then [224 + n / 4096, 128 + n / 64 % 64, 128 + n % 64]
  else [240 + n / 262144, 128 + n / 4096 % 64, 128 + n / 64 % 64, 128 + n % 64]

/-- UTF-8 encoding of a string. -/
def encodeUTF8 (s : String) : List Nat := s.data.flatMap utf8Bytes

/-- The base64url alphabet used by `base64.urlsafe_b64encode`. -/
def b64alphabet : List Char :=
  "ABCDEFGHIJKLMNOPQRSTUVWXYZabcdefghijklmnopqrstuvwxyz0123456789-_".data

/-- Look up one alphabet character; indices produced by the encoder are
always `< 64`, so the `% 64` is a no-op on them. -/
def b64char (i : Nat) : Char := b64alphabet.getD (i % 64) 'A'

/-- Base64url encoding with `=` padding, modelling
`base64.urlsafe_b64encode` on a byte string. -/
def b64encode : List Nat → List Char
  | a :: b :: c :: rest =>
      b64char (a / 4) :: b64char (a % 4 * 16 + b / 16) ::
      b64char (b % 16 * 4 + c / 64) :: b64char (c % 64) :: b64encode rest
  | [a, b] => [b64char (a / 4), b64char (a % 4 * 16 + b / 16), b64char (b % 16 * 4), '=']
  | [a] => [b64char (a / 4), b64char (a % 4 * 16), '=', '=']
  | [] => []

/-- `generate_short_url` (src/app.py lines 120-124): the first 6
characters of the base64url encoding of the SHA-256 digest of
`long_url + salt`. -/
def generate_short_url (long_url : String) (salt : String) : String :=
  ⟨(b64encode (sha256 (encodeUTF8 (long_url ++ salt)))).take 6⟩

example : generate_short_url "" "" = "47DEQp" := by decide
example : generate_short_url "abc" "" = "ungWv4" := by decide
example : generate_short_url "https://example.com" "" = "EAaArV" := by decide
example : generate_short_url "https://example.com" "1" = "YU-wCI" := by decide

/-- The character class of the pattern `[a-zA-Z0-9_-]` used by both
`is_valid_alias` (line 114) and `redirect_url`'s code check (line 281). -/
def isCodeChar (c : Char) : Bool :=
  ('A' ≤ c && c ≤ 'Z') || ('a' ≤ c && c ≤ 'z') || ('0' ≤ c && c ≤ '9') || c == '_' || c == '-'

/-- Model of `bool(re.match(r'^[a-zA-Z0-9_-]{1,50}$', s))`.  Python's `$`
anchor (without `re.MULTILINE`) matches at the end of the string or just
before a single newline at the end, so the pattern also accepts 1-50
class characters followed by one trailing newline. -/
def reMatchCode (cs : List Char) : Bool :=
  (decide (1 ≤ cs.length) && decide (cs.length ≤ 50) && cs.all isCodeChar)
  || (match cs.getLast? with
      | some c =>
          decide (c = '\n') &&
          (decide (1 ≤ cs.dropLast.length) && decide (cs.dropLast.length ≤ 50) &&
           cs.dropLast.all isCodeChar)
      | none => false)

example : reMatchCode "abc".data = true := by decide
example : reMatchCode ['a', 'b', 'c', '\n'] = true := by decide
example : reMatchCode ['a', 'b', '\n', '\n'] = false := by decide
example : reMatchCode ['\n'] = false := by decide
example : reMatchCode "".data = false := by decide

/-- Python whitespace characters stripped by `str.strip()` and by
`int()` (ASCII portion; the inputs in question are ASCII form fields). -/
def pySpace (c : Char) : Bool :=
  c == ' ' || c == '\t' || c == '\n' || c == '\r' || c == '\x0b' || c == '\x0c'

/-- Model of Python `str.strip()` on a character list. -/
def pyStripList (cs : List Char) : List Char :=
  ((cs.dropWhile pySpace).reverse.dropWhile pySpace).reverse

/-- Model of Python `str.strip()`. -/
def pyStrip (s : String) : String := ⟨pyStripList s.data⟩

/-- Numeric value of an ASCII digit. -/
def digitVal (c : Char) : Nat := c.toNat - 48

/-- Continue parsing a Python integer literal after the first digit:
an underscore may separate digits but may not lead, trail or repeat. -/
def parseDigitsAux : List Char → Nat → Option Nat
  | [], acc => some acc
  | '_' :: c :: rest, acc =>
      if c.isDigit then parseDigitsAux rest (acc * 10 + digitVal c) else none
  | ['_'], _ => none
  | c :: rest, acc =>
      if c.isDigit then parseDigitsAux rest (acc * 10 + digitVal c) else none

/-- Parse a nonempty digit sequence with optional internal underscores. -/
def parseDigitSeq : List Char → Option Nat
  | c :: rest => if c.isDigit then parseDigitsAux rest (digitVal c) else none
  | [] => none

/-- Model of Python `int(s)` for ASCII strings: optional surrounding
whitespace, an optional sign, then digits with optional single
underscores between them; `none` models the `ValueError` path.
(Python also accepts non-ASCII Unicode digits, which never arise here.) -/
def pyIntOfString (cs : List Char) : Option Int :=
  match pyStripList cs with
  | '+' :: rest => (parseDigitSeq rest).map (fun n => (n : Int))
  | '-' :: rest => (parseDigitSeq rest).map (fun n => -(n : Int))
  | rest => (parseDigitSeq rest).map (fun n => (n : Int))

example : pyIntOfString " +10 ".data = some 10 := by decide
example : pyIntOfString "1_0".data = some 10 := by decide
example : pyIntOfString "1__0".data = none := by decide
example : pyIntOfString "1_".data = none := by decide
example : pyIntOfString "-5".data = some (-5) := by decide
example : pyIntOfString "".data = none := by decide

/-- Model of `s.replace('custom_', '')`: Python `str.replace` removes
every non-overlapping occurrence of the pattern, scanning left to
right, not just a prefix. -/
def stripCustom : List Char → List Char
  | 'c' :: 'u' :: 's' :: 't' :: 'o' :: 'm' :: '_' :: rest => stripCustom rest
  | c :: rest => c :: stripCustom rest
  | [] => []

example : stripCustom "custom_10".data = "10".data := by decide
example : stripCustom "custom_custom_10".data = "10".data := by decide
example : stripCustom "acustom_b".data = "ab".data := by decide

/-- The `expiration_map` dictionary of `calculate_expiration`
(src/app.py lines 144-151), with durations in minutes. -/
def expiration_map : List (String × Nat) :=
  [("1h", 60), ("24h", 1440), ("7d", 10080), ("30d", 43200),
   ("90d", 129600), ("1y", 525600)]

/-- `calculate_expiration` (src/app.py lines 138-165).  Timestamps are
integers in minutes; `none` is Python's `None`. -/
def calculate_expiration (expiration_type : String) (now : Int) : Option Int :=
  if expiration_type = "" ∨ expiration_type = "never" then none
  else
    match expiration_map.lookup expiration_type with
    | some d => some (now + d)
    | none =>
        if ("custom_".data).isPrefixOf expiration_type.data then
          match pyIntOfString (stripCustom expiration_type.data) with
          | some minutes => if 0 < minutes then some (now + minutes) else none
          | none => none
        else none

example : calculate_expiration "never" 0 = none := by decide
example : calculate_expiration "1h" 100 = some 160 := by decide
example : calculate_expiration "custom_90" 0 = some 90 := by decide
example : calculate_expiration "custom_-5" 0 = none := by decide
example : calculate_expiration "banana" 0 = none := by decide
example : calculate_expiration "custom_custom_10" 0 = some 10 := by decide

/-- Characters with code points up to 0x20: the WHATWG "C0 control or
space" set that `urlsplit` strips from the front of its input. -/
def c0OrSpace (c : Char) : Bool := c.toNat ≤ 32

/-- Tab, CR and LF: `urlsplit` deletes these anywhere in the URL. -/
def tabCrLf (c : Char) : Bool := c == '\t' || c == '\r' || c == '\n'

/-- Characters allowed in a URL scheme after the first letter. -/
def schemeChar (c : Char) : Bool :=
  c.isAlpha || c.isDigit || c == '+' || c == '-' || c == '.'

/-- Split a list at the first character satisfying `p`; the second
component starts with that character when one exists. -/
def breakAt (p : Char → Bool) : List Char → List Char × List Char
  | [] => ([], [])
  | c :: rest =>
      if p c then ([], c :: rest)
      else
        let s := breakAt p rest
        (c :: s.1, s.2)

/-- Scheme extraction of `urllib.parse.urlsplit`: a scheme is split off
only when a `:` occurs at a positive index and everything before it is
a letter followed by scheme characters; it is lowercased. -/
def extractScheme (u : List Char) : List Char × List Char :=
  let s := breakAt (fun c => c == ':') u
  match s.2 with
  | ':' :: rest =>
      match s.1 with
      | [] => ([], u)
      | c0 :: _ =>
          if c0.isAlpha && s.1.all schemeChar then (s.1.map Char.toLower, rest)
          else ([], u)
  | _ => ([], u)

/-- Model of `urllib.parse.urlparse` restricted to the `scheme` and
`netloc` fields used by `is_valid_url`; `none` models the
`ValueError("Invalid IPv6 URL")` raised on unbalanced brackets in the
netloc.  (The NFKC `_checknetloc` check only rejects certain
non-ASCII netlocs and is not modelled.) -/
def urlparseSchemeNetloc (s : String) : Option (List Char × List Char) :=
  let u0 := (s.data.dropWhile c0OrSpace).filter (fun c => !tabCrLf c)
  let sr := extractScheme u0
  if sr.2.take 2 = ['/', '/'] then
    let netloc := (sr.2.drop 2).takeWhile (fun c => !(c == '/' || c == '?' || c == '#'))
    if (decide ('[' ∈ netloc)) == (decide (']' ∈ netloc)) then some (sr.1, netloc)
    else none
  else some (sr.1, [])

/-- `is_valid_url` (src/app.py lines 101-107): the parsed scheme must be
`http` or `https` and the netloc nonempty; any parse exception yields
`False` via the bare `except`. -/
def is_valid_url (url : String) : Bool :=
  match urlparseSchemeNetloc url with
  | some (scheme, netloc) =>
      (scheme == "http".data || scheme == "https".data) && !netloc.isEmpty
  | none => false

example : is_valid_url "http://example.com" = true := by decide
example : is_valid_url "HTTP://x" = true := by decide
example : is_valid_url "https://a.com/p?q#f" = true := by decide
example : is_valid_url "http://" = false := by decide
example : is_valid_url "http:/x" = false := by decide
example : is_valid_url "ftp://x.com" = false := by decide
example : is_valid_url "http://[abc" = false := by decide
example : is_valid_url "1http://x" = false := by decide
example : is_valid_url "not a url" = false := by decide

/-- `is_valid_alias` (src/app.py lines 110-114): an empty alias is
accepted (auto-generate), otherwise the regex decides. -/
def is_valid_alias (s : String) : Bool :=
  if s = "" then true else reMatchCode s.data

example : is_valid_alias "" = true := by decide
example : is_valid_alias "my-blog_1" = true := by decide
example : is_valid_alias "bad alias" = false := by decide

/-- One entry of `DEV_STORAGE` (src/app.py line 23): the ephemeral
variant records only the long URL and the expiry — it has no clicks
field.  (The legacy plain-string shape handled at line 289 is never
produced by this program, whose storage starts empty.) -/
structure DevEntry where
  long_url : String
  expires_at : Option Int
deriving DecidableEq

/-- One row of the durable `url_mapping` table (src/app.py lines 50-57),
keyed by `short_url`; the surrogate `id` and `created_at` play no role
in any operation modelled here and are omitted. -/
structure DbRow where
  long_url : String
  expires_at : Option Int
  clicks : Nat
deriving DecidableEq

/-- The ephemeral store: `DEV_STORAGE` as an association list keyed by
short code (keys are unique because entries are only added when the key
is absent). -/
abbrev DevStore := List (String × DevEntry)

/-- The durable store: the `url_mapping` table as an association list
keyed by `short_url` (unique by the table constraint). -/
abbrev DbStore := List (String × DbRow)

/-- The responses `/shorten` can produce (src/app.py lines 168-272). -/
inductive ShortenResp where
  /-- 200 with the new short code, echoing the long URL and expiry. -/
  | success (code : String) (long_url : String) (expires_at : Option Int)
  /-- 400 "Please enter a valid URL (http/https)". -/
  | invalidUrl
  /-- 400 "Alias can only contain letters, numbers, hyphens, and underscores". -/
  | invalidAlias
  /-- 400 "Alias already taken". -/
  | aliasTaken
  /-- 500 "Failed to generate unique URL. Try again.". -/
  | genExhausted
  /-- 500 "Database error occurred" (the outer `except Exception`). -/
  | dbError
  /-- 500 "Database connection failed". -/
  | connFailed
deriving DecidableEq

/-- The responses `/<short_url>` can produce (src/app.py lines 278-325). -/
inductive Resp where
  /-- 302 redirect to the stored long URL. -/
  | redirect (url : String)
  /-- 400 "Invalid URL" (code format check). -/
  | invalidInput
  /-- 404 "Not Found". -/
  | notFound
  /-- 410 expired.html. -/
  | expiredPage
  /-- 500 "Server Error" (the `except Exception` at line 323). -/
  | serverError
deriving DecidableEq

/-- Salt of auto-generation attempt `i`: `str(attempt) if attempt > 0
else ""` (src/app.py lines 202 and 247). -/
def saltOf (attempt : Nat) : String := if attempt > 0 then toString attempt else ""

/-- The collision test of development mode: `short_url in DEV_STORAGE`
(src/app.py line 204). -/
def devTaken (store : DevStore) (code : String) : Bool := (store.lookup code).isSome

/-- Whether an insert of `code` hits the unique constraint in database
mode: the code is already committed in `store` or was inserted by a
concurrent writer (`conc`) after `store` was observed. -/
def dbTaken (store : DbStore) (conc : List String) (code : String) : Bool :=
  (store.lookup code).isSome || conc.contains code

/-- Auto-generation loop of development mode (src/app.py lines 200-213),
parametrised by the list of remaining attempt indices (`range(5)` at the
call site).  A collision moves to the next salt; exhaustion is the
500 "Failed to generate unique URL" response. -/
def devAutoTry (store : DevStore) (long_url : String) (expires_at : Option Int) :
    List Nat → ShortenResp × DevStore
  | [] => (.genExhausted, store)
  | attempt :: rest =>
      let code := generate_short_url long_url (saltOf attempt)
      if devTaken store code then devAutoTry store long_url expires_at rest
      else (.success code long_url expires_at, (code, ⟨long_url, expires_at⟩) :: store)

/-- Auto-generation loop of database mode (src/app.py lines 246-268):
an insert that raises `UniqueViolation` is rolled back and the next
salt is tried. -/
def dbAutoTry (store : DbStore) (conc : List String) (long_url : String)
    (expires_at : Option Int) : List Nat → ShortenResp × DbStore
  | [] => (.genExhausted, store)
  | attempt :: rest =>
      let code := generate_short_url long_url (saltOf attempt)
      if dbTaken store conc code then dbAutoTry store conc long_url expires_at rest
      else (.success code long_url expires_at, (code, ⟨long_url, expires_at, 0⟩) :: store)

/-- `shorten_url`, development-mode path (src/app.py lines 168-213):
strip the form fields, validate, compute the expiry, then either take
the custom-alias path or the auto-generation loop. -/
def shorten_url_dev (store : DevStore) (long_url_f alias_f expiration_f : String)
    (now : Int) : ShortenResp × DevStore :=
  let long_url := pyStrip long_url_f
  let custom_alias := pyStrip alias_f
  let expiration_type := pyStrip expiration_f
  if long_url = "" ∨ is_valid_url long_url = false then (.invalidUrl, store)
  else if custom_alias ≠ "" ∧ is_valid_alias custom_alias = false then (.invalidAlias, store)
  else
    let expires_at := calculate_expiration expiration_type now
    if custom_alias ≠ "" then
      if (store.lookup custom_alias).isSome then (.aliasTaken, store)
      else (.success custom_alias long_url expires_at,
            (custom_alias, ⟨long_url, expires_at⟩) :: store)
    else devAutoTry store long_url expires_at [0, 1, 2, 3, 4]

/-- `shorten_url`, database-mode path (src/app.py lines 168-272).
`conc` are codes committed by concurrent writers after the alias
pre-check read `store`.  On the custom-alias path a unique-constraint
violation at insert time is NOT caught specifically — it propagates to
the outer `except Exception` (line 270) and becomes the generic
500 "Database error occurred"; only the auto-generation loop catches
`UniqueViolation` and retries. -/
def shorten_url_db (store : DbStore) (conc : List String)
    (long_url_f alias_f expiration_f : String) (now : Int) : ShortenResp × DbStore :=
  let long_url := pyStrip long_url_f
  let custom_alias := pyStrip alias_f
  let expiration_type := pyStrip expiration_f
  if long_url = "" ∨ is_valid_url long_url = false then (.invalidUrl, store)
  else if custom_alias ≠ "" ∧ is_valid_alias custom_alias = false then (.invalidAlias, store)
  else
    let expires_at := calculate_expiration expiration_type now
    if custom_alias ≠ "" then
      if (store.lookup custom_alias).isSome then (.aliasTaken, store)
      else if conc.contains custom_alias then (.dbError, store)
      else (.success custom_alias long_url expires_at,
            (custom_alias, ⟨long_url, expires_at, 0⟩) :: store)
    else dbAutoTry store conc long_url expires_at [0, 1, 2, 3, 4]

/-- `redirect_url`, development-mode path (src/app.py lines 278-296).
No field of the store is ever written: the ephemeral variant keeps no
click counter.  The state is returned unchanged to make that explicit. -/
def redirect_url_dev (store : DevStore) (short_url : String) (now : Int) :
    Resp × DevStore :=
  if reMatchCode short_url.data = false then (.invalidInput, store)
  else
    match store.lookup short_url with
    | none => (.notFound, store)
    | some entry =>
        match entry.expires_at with
        | some e => if e < now then (.expiredPage, store) else (.redirect entry.long_url, store)
        | none => (.redirect entry.long_url, store)

/-- The `UPDATE url_mapping SET clicks = clicks + 1 WHERE short_url = %s`
statement (src/app.py line 315). -/
def updateClicks (store : DbStore) (short_url : String) : DbStore :=
  store.map (fun kv => if kv.1 = short_url then (kv.1, ⟨kv.2.long_url, kv.2.expires_at, kv.2.clicks + 1⟩) else kv)

/-- `redirect_url`, database-mode path (src/app.py lines 278-325).
`incFails` models the click-increment `UPDATE`/commit raising: the
exception is caught by the generic handler at line 323, so the request
returns 500 "Server Error" instead of the redirect (the increment is
not committed). -/
def redirect_url_db (store : DbStore) (short_url : String) (now : Int)
    (incFails : Bool) : Resp × DbStore :=
  if reMatchCode short_url.data = false then (.invalidInput, store)
  else
    match store.lookup short_url with
    | none => (.notFound, store)
    | some row =>
        match row.expires_at with
        | some e =>
            if e < now then (.expiredPage, store)
            else if incFails then (.serverError, store)
            else (.redirect row.long_url, updateClicks store short_url)
        | none =>
            if incFails then (.serverError, store)
            else (.redirect row.long_url, updateClicks store short_url)

example :
    shorten_url_dev [] "https://example.com" "blog" "never" 0 =
      (.success "blog" "https://example.com" none, [("blog", ⟨"https://example.com", none⟩)]) := by
  decide
example :
    (shorten_url_dev [("blog", ⟨"https://a.com", none⟩)] "https://b.com" "blog" "never" 0).1 =
      .aliasTaken := by decide
example :
    (shorten_url_db [] [] "https://example.com" "" "1h" 0).1 =
      .success "EAaArV" "https://example.com" (some 60) := by decide
example :
    (redirect_url_db [("EAaArV", ⟨"https://example.com", some 60, 0⟩)] "EAaArV" 30 false) =
      (.redirect "https://example.com", [("EAaArV", ⟨"https://example.com", some 60, 1⟩)]) := by
  decide
example :
    (redirect_url_db [("EAaArV", ⟨"https://example.com", some 60, 0⟩)] "EAaArV" 61 false).1 =
      .expiredPage := by decide
example : (redirect_url_db [] "EAaArV" 0 false).1 = .notFound := by decide
example : (redirect_url_dev [] "bad code!" 0).1 = .invalidInput := by decide


/-! ### Helper lemmas -/

theorem b64alphabet_length : b64alphabet.length = 64 := rfl

theorem b64char_mem (i : Nat) : b64char i ∈ b64alphabet := by
  have h : i % 64 < b64alphabet.length := by
    rw [b64alphabet_length]; exact Nat.mod_lt _ (by decide)
  simp only [b64char, List.getD_eq_getElem?_getD, List.getElem?_eq_getElem h, Option.getD_some]
  exact List.getElem_mem h

theorem b64encode_length_ge : ∀ bs : List Nat, bs.length ≤ (b64encode bs).length
  | [] => by simp [b64encode]
  | [_] => by simp [b64encode]
  | [_, _] => by simp [b64encode]
  | _ :: _ :: _ :: rest => by
      have ih := b64encode_length_ge rest
      simp only [b64encode, List.length_cons]
      omega

theorem sha256_length (msg : List Nat) : (sha256 msg).length = 32 := rfl

theorem b64encode_take6 (bs : List Nat) (h : 6 ≤ bs.length) :
    ∀ ch ∈ (b64encode bs).take 6, ch ∈ b64alphabet := by
  match bs with
  | [] | [_] | [_, _] | [_, _, _] | [_, _, _, _] | [_, _, _, _, _] => simp at h
  | a :: b :: c :: d :: e :: f :: rest =>
      intro ch hch
      simp only [b64encode, List.take_succ_cons, List.take_zero, List.mem_cons,
        List.not_mem_nil, or_false] at hch
      rcases hch with h1 | h1 | h1 | h1 | h1 | h1 <;> (subst h1; exact b64char_mem _)

theorem generate_data_length (u s : String) : (generate_short_url u s).data.length = 6 := by
  have h32 : 6 ≤ (sha256 (encodeUTF8 (u ++ s))).length := by rw [sha256_length]; omega
  have h := b64encode_length_ge (sha256 (encodeUTF8 (u ++ s)))
  simp only [generate_short_url, List.length_take]
  omega

theorem generate_chars (u s : String) :
    ∀ ch ∈ (generate_short_url u s).data, ch ∈ b64alphabet := by
  intro ch hch
  have h32 : 6 ≤ (sha256 (encodeUTF8 (u ++ s))).length := by rw [sha256_length]; omega
  exact b64encode_take6 _ h32 ch hch

theorem b64alphabet_codeChar : ∀ ch ∈ b64alphabet, isCodeChar ch = true := by decide

theorem generate_reMatch (u s : String) : reMatchCode (generate_short_url u s).data = true := by
  have hall : (generate_short_url u s).data.all isCodeChar = true := by
    rw [List.all_eq_true]
    intro ch hch
    exact b64alphabet_codeChar ch (generate_chars u s ch hch)
  have hlen := generate_data_length u s
  simp [reMatchCode, hlen, hall]

theorem updateClicks_cons (k : String) (r : DbRow) (rest : DbStore) (code : String) :
    updateClicks ((k, r) :: rest) code =
      (if k = code then (k, ⟨r.long_url, r.expires_at, r.clicks + 1⟩) else (k, r)) ::
        updateClicks rest code := rfl

theorem updateClicks_lookup_self (store : DbStore) (code : String) :
    (updateClicks store code).lookup code =
      (store.lookup code).map (fun r => ⟨r.long_url, r.expires_at, r.clicks + 1⟩) := by
  induction store with
  | nil => rfl
  | cons kv rest ih =>
      obtain ⟨k, r⟩ := kv
      rw [updateClicks_cons]
      by_cases hk : k = code
      · rw [if_pos hk]
        subst hk
        simp [List.lookup_cons]
      · have hne : (code == k) = false := by simp [Ne.symm hk]
        rw [if_neg hk]
        simp only [List.lookup_cons, hne]
        exact ih

theorem updateClicks_lookup_ne (store : DbStore) (code c2 : String) (h : c2 ≠ code) :
    (updateClicks store code).lookup c2 = store.lookup c2 := by
  induction store with
  | nil => rfl
  | cons kv rest ih =>
      obtain ⟨k, r⟩ := kv
      rw [updateClicks_cons]
      by_cases hk : k = code
      · rw [if_pos hk]
        have hne : (c2 == k) = false := by
          simp only [beq_eq_false_iff_ne, ne_eq]
          intro he; rw [he] at h; exact h hk
        simp only [List.lookup_cons, hne]
        exact ih
      · rw [if_neg hk]
        by_cases hk2 : c2 = k
        · subst hk2; simp [List.lookup_cons]
        · have hne : (c2 == k) = false := by simp [hk2]
          simp only [List.lookup_cons, hne]
          exact ih

theorem dbAutoTry_eq_find (store : DbStore) (conc : List String) (u : String)
    (ea : Option Int) (l : List Nat) :
    dbAutoTry store conc u ea l =
      match l.find? (fun i => !dbTaken store conc (generate_short_url u (saltOf i))) with
      | some i =>
          (.success (generate_short_url u (saltOf i)) u ea,
           (generate_short_url u (saltOf i), ⟨u, ea, 0⟩) :: store)
      | none => (.genExhausted, store) := by
  induction l with
  | nil => rfl
  | cons a rest ih =>
      cases hc : dbTaken store conc (generate_short_url u (saltOf a)) with
      | true =>
          rw [List.find?_cons_of_neg _ (by simp [hc])]
          simp only [dbAutoTry]
          rw [if_pos hc]
          exact ih
      | false =>
          rw [List.find?_cons_of_pos _ (by simp [hc])]
          simp only [dbAutoTry]
          rw [if_neg (by simp [hc])]

theorem devAutoTry_eq_find (store : DevStore) (u : String) (ea : Option Int) (l : List Nat) :
    devAutoTry store u ea l =
      match l.find? (fun i => !devTaken store (generate_short_url u (saltOf i))) with
      | some i =>
          (.success (generate_short_url u (saltOf i)) u ea,
           (generate_short_url u (saltOf i), ⟨u, ea⟩) :: store)
      | none => (.genExhausted, store) := by
  induction l with
  | nil => rfl
  | cons a rest ih =>
      cases hc : devTaken store (generate_short_url u (saltOf a)) with
      | true =>
          rw [List.find?_cons_of_neg _ (by simp [hc])]
          simp only [devAutoTry]
          rw [if_pos hc]
          exact ih
      | false =>
          rw [List.find?_cons_of_pos _ (by simp [hc])]
          simp only [devAutoTry]
          rw [if_neg (by simp [hc])]

theorem dbAutoTry_frame (store : DbStore) (conc : List String) (u : String)
    (ea : Option Int) (l : List Nat) (code : String) (row : DbRow)
    (h : store.lookup code = some row) :
    ((dbAutoTry store conc u ea l).2).lookup code = some row := by
  induction l with
  | nil => exact h
  | cons a rest ih =>
      cases hc : dbTaken store conc (generate_short_url u (saltOf a)) with
      | true =>
          simp only [dbAutoTry]
          rw [if_pos hc]
          exact ih
      | false =>
          simp only [dbAutoTry]
          rw [if_neg (by simp [hc])]
          have hfree : (store.lookup (generate_short_url u (saltOf a))).isSome = false := by
            simp only [dbTaken, Bool.or_eq_false_iff] at hc
            exact hc.1
          have hne : (code == generate_short_url u (saltOf a)) = false := by
            simp only [beq_eq_false_iff_ne, ne_eq]
            intro he
            rw [← he, h] at hfree
            simp at hfree
          simp only [List.lookup_cons, hne]
          exact h

theorem devAutoTry_frame (store : DevStore) (u : String)
    (ea : Option Int) (l : List Nat) (code : String) (entry : DevEntry)
    (h : store.lookup code = some entry) :
    ((devAutoTry store u ea l).2).lookup code = some entry := by
  induction l with
  | nil => exact h
  | cons a rest ih =>
      cases hc : devTaken store (generate_short_url u (saltOf a)) with
      | true =>
          simp only [devAutoTry]
          rw [if_pos hc]
          exact ih
      | false =>
          simp only [devAutoTry]
          rw [if_neg (by simp [hc])]
          have hfree : (store.lookup (generate_short_url u (saltOf a))).isSome = false := hc
          have hne : (code == generate_short_url u (saltOf a)) = false := by
            simp only [beq_eq_false_iff_ne, ne_eq]
            intro he
            rw [← he, h] at hfree
            simp at hfree
          simp only [List.lookup_cons, hne]
          exact h

/-! ### Claim theorems -/

/-- C7: `generate_short_url` is deterministic (equal arguments give equal
codes), is exactly the first 6 characters of the base64url encoding of
the SHA-256 digest of `longURL + salt`, and always returns exactly 6
characters drawn from the base64url alphabet. -/
theorem C7_generate_deterministic_six_b64url_chars (u1 u2 s1 s2 : String)
    (h1 : u1 = u2) (h2 : s1 = s2) :
    generate_short_url u1 s1 = generate_short_url u2 s2 ∧
    generate_short_url u1 s1 = ⟨(b64encode (sha256 (encodeUTF8 (u1 ++ s1)))).take 6⟩ ∧
    (generate_short_url u1 s1).length = 6 ∧
    ∀ ch ∈ (generate_short_url u1 s1).data, ch ∈ b64alphabet := by
  subst h1; subst h2
  exact ⟨rfl, rfl, generate_data_length u1 s1, generate_chars u1 s1⟩

/-- Witness for C7 at a concrete input. -/
theorem C7_generate_deterministic_six_b64url_chars_witness :
    generate_short_url "https://example.com" "1" = generate_short_url "https://example.com" "1" ∧
    generate_short_url "https://example.com" "1" =
      ⟨(b64encode (sha256 (encodeUTF8 ("https://example.com" ++ "1")))).take 6⟩ ∧
    (generate_short_url "https://example.com" "1").length = 6 ∧
    ∀ ch ∈ (generate_short_url "https://example.com" "1").data, ch ∈ b64alphabet :=
  C7_generate_deterministic_six_b64url_chars "https://example.com" "https://example.com" "1" "1"
    rfl rfl

/-- C10: every code produced by `generate_short_url` passes the
`[a-zA-Z0-9_-]{1,50}` format check of `redirect_url`, so a generated
code is never answered with the 400 "Invalid URL" response in either
storage mode. -/
theorem C10_generated_codes_pass_resolve_validation (u s : String) (store : DbStore)
    (dstore : DevStore) (now : Int) (incFails : Bool) :
    reMatchCode (generate_short_url u s).data = true ∧
    (redirect_url_db store (generate_short_url u s) now incFails).1 ≠ Resp.invalidInput ∧
    (redirect_url_dev dstore (generate_short_url u s) now).1 ≠ Resp.invalidInput := by
  refine ⟨generate_reMatch u s, ?_, ?_⟩
  · unfold redirect_url_db
    rw [generate_reMatch u s]
    rw [if_neg (by simp)]
    cases hl : store.lookup (generate_short_url u s) with
    | none => simp
    | some row =>
        simp only
        cases he : row.expires_at with
        | none => cases incFails <;> simp
        | some e =>
            by_cases hlt : e < now
            · simp [hlt]
            · cases incFails <;> simp [hlt]
  · unfold redirect_url_dev
    rw [generate_reMatch u s]
    rw [if_neg (by simp)]
    cases hl : dstore.lookup (generate_short_url u s) with
    | none => simp
    | some entry =>
        simp only
        cases he : entry.expires_at with
        | none => simp
        | some e =>
            by_cases hlt : e < now
            · simp [hlt]
            · simp [hlt]

/-- The alias contract exactly as the specification words it: 1 to 50
characters, all drawn from `[A-Za-z0-9_-]`. -/
def aliasSpecOk (cs : List Char) : Bool :=
  decide (1 ≤ cs.length) && decide (cs.length ≤ 50) && cs.all isCodeChar

/-- C8 counterexample: `is_valid_alias` accepts the string `"a\n"`,
which is not 1-50 characters drawn from `[A-Za-z0-9_-]` (its second
character is a newline), because Python's `$` anchor also matches just
before a trailing newline. -/
theorem C8_counterexample_trailing_newline :
    is_valid_alias "a\n" = true ∧ aliasSpecOk "a\n".data = false := by decide

/-- C8 as amended: `is_valid_url` is true exactly when the modelled
`urlparse` succeeds with scheme `http` or `https` and a nonempty
netloc; `is_valid_alias` is true exactly for the empty alias, for 1-50
characters of `[A-Za-z0-9_-]`, or for such a string followed by one
trailing newline (accepted by Python's `$` anchor). -/
theorem C8_amended_validators (s : String) :
    (is_valid_url s = true ↔
      ∃ pr, urlparseSchemeNetloc s = some pr ∧
        (pr.1 = "http".data ∨ pr.1 = "https".data) ∧ pr.2 ≠ []) ∧
    (is_valid_alias s = true ↔
      (s = "" ∨ aliasSpecOk s.data = true ∨
        (s.data.getLast? = some '\n' ∧ aliasSpecOk s.data.dropLast = true))) := by
  constructor
  · unfold is_valid_url
    cases hp : urlparseSchemeNetloc s with
    | none => simp
    | some pr =>
        obtain ⟨sch, nl⟩ := pr
        simp [Bool.and_eq_true, Bool.or_eq_true, List.isEmpty_iff]
  · by_cases hs : s = ""
    · simp [is_valid_alias, hs]
    · simp only [is_valid_alias, if_neg hs]
      have hre : reMatchCode s.data =
          (aliasSpecOk s.data ||
            (match s.data.getLast? with
             | some c => decide (c = '\n') && aliasSpecOk s.data.dropLast
             | none => false)) := rfl
      rw [hre]
      cases hlast : s.data.getLast? with
      | none => simp [hs]
      | some c =>
          by_cases hc : c = '\n'
          · subst hc
            simp [hs, Bool.or_eq_true, Bool.and_eq_true]
          · simp [hs, hc, Bool.or_eq_true, Bool.and_eq_true]

/-- Decimal value of a digit string. -/
def digitsValue (cs : List Char) : Nat :=
  cs.foldl (fun acc c => acc * 10 + digitVal c) 0

/-- The expiration policy exactly as the specification words it:
`"never"`/empty and the six fixed tokens as listed, `custom_<N>` with
`N` a positive integer written in decimal digits, everything else
`none`. -/
def specExpiration (token : String) (now : Int) : Option Int :=
  if token = "" ∨ token = "never" then none
  else if token = "1h" then some (now + 60)
  else if token = "24h" then some (now + 1440)
  else if token = "7d" then some (now + 10080)
  else if token = "30d" then some (now + 43200)
  else if token = "90d" then some (now + 129600)
  else if token = "1y" then some (now + 525600)
  else if ("custom_".data).isPrefixOf token.data then
    let suffix := token.data.drop 7
    if suffix ≠ [] ∧ suffix.all Char.isDigit ∧ 0 < digitsValue suffix then
      some (now + digitsValue suffix)
    else none
  else none

/-- C6 counterexample: on the token `"custom_custom_10"` the claim's
table yields `none` (the part after `custom_` is not a positive
integer), but the code yields `now + 10` minutes, because
`str.replace('custom_', '')` deletes every occurrence of the substring,
not only a leading one. -/
theorem C6_counterexample_replace_all :
    calculate_expiration "custom_custom_10" 0 = some 10 ∧
    specExpiration "custom_custom_10" 0 = none ∧
    (some (10 : Int) ≠ (none : Option Int)) := by decide

/-- C6 as amended: the fixed tokens behave as claimed; a token starting
with `custom_` has every occurrence of the substring `custom_` removed
and the remainder parsed as a Python integer literal (optional
whitespace and sign, underscores between digits), giving `now + N`
minutes when positive and `none` otherwise; all remaining tokens give
`none`, never an error. -/
theorem C6_amended_expiration (r t : String) (now : Int)
    (ht1 : t ≠ "") (ht2 : t ≠ "never")
    (ht3 : t ∉ (["1h", "24h", "7d", "30d", "90d", "1y"] : List String))
    (ht4 : ¬ ("custom_".data).isPrefixOf t.data) :
    calculate_expiration "" now = none ∧
    calculate_expiration "never" now = none ∧
    calculate_expiration "1h" now = some (now + 60) ∧
    calculate_expiration "24h" now = some (now + 1440) ∧
    calculate_expiration "7d" now = some (now + 10080) ∧
    calculate_expiration "30d" now = some (now + 43200) ∧
    calculate_expiration "90d" now = some (now + 129600) ∧
    calculate_expiration "1y" now = some (now + 525600) ∧
    calculate_expiration ("custom_" ++ r) now =
      (match pyIntOfString (stripCustom ("custom_" ++ r).data) with
       | some n => if 0 < n then some (now + n) else none
       | none => none) ∧
    calculate_expiration t now = none := by
  refine ⟨rfl, rfl, by simp [calculate_expiration, expiration_map, List.lookup],
    by simp [calculate_expiration, expiration_map, List.lookup],
    by simp [calculate_expiration, expiration_map, List.lookup],
    by simp [calculate_expiration, expiration_map, List.lookup],
    by simp [calculate_expiration, expiration_map, List.lookup],
    by simp [calculate_expiration, expiration_map, List.lookup], ?_, ?_⟩
  · have hne : ¬("custom_" ++ r = "" ∨ "custom_" ++ r = "never") := by
      rintro (h | h) <;> simp [String.ext_iff, String.data_append] at h
    have hmap : expiration_map.lookup ("custom_" ++ r) = none := by
      have h1 : ∀ k : String, k ∈ ["1h", "24h", "7d", "30d", "90d", "1y"] →
          ("custom_" ++ r) ≠ k := by
        intro k hk he
        have := congrArg String.data he
        rw [String.data_append] at this
        fin_cases hk <;> simp at this
      simp only [expiration_map, List.lookup_cons, List.lookup_nil]
      rw [beq_eq_false_iff_ne.2 (h1 _ (by simp)), beq_eq_false_iff_ne.2 (h1 _ (by simp)),
        beq_eq_false_iff_ne.2 (h1 _ (by simp)), beq_eq_false_iff_ne.2 (h1 _ (by simp)),
        beq_eq_false_iff_ne.2 (h1 _ (by simp)), beq_eq_false_iff_ne.2 (h1 _ (by simp))]
    have hpre : ("custom_".data).isPrefixOf ("custom_" ++ r).data = true := by
      rw [String.data_append, List.isPrefixOf_iff_prefix]
      exact List.prefix_append _ _
    simp only [calculate_expiration, if_neg hne, hmap, hpre, if_true]
  · have hne : ¬(t = "" ∨ t = "never") := by rintro (h | h) <;> [exact ht1 h; exact ht2 h]
    have hmap : expiration_map.lookup t = none := by
      simp only [List.mem_cons, List.not_mem_nil, or_false, not_or] at ht3
      obtain ⟨h1, h2, h3, h4, h5, h6⟩ := ht3
      simp only [expiration_map, List.lookup_cons, List.lookup_nil]
      rw [beq_eq_false_iff_ne.2 h1, beq_eq_false_iff_ne.2 h2, beq_eq_false_iff_ne.2 h3,
        beq_eq_false_iff_ne.2 h4, beq_eq_false_iff_ne.2 h5, beq_eq_false_iff_ne.2 h6]
    simp only [calculate_expiration, if_neg hne, hmap]
    rw [if_neg (by simpa using ht4)]

/-- Witness for C6's amended theorem at concrete inputs. -/
theorem C6_amended_expiration_witness :
    calculate_expiration ("custom_" ++ "15") 0 =
      (match pyIntOfString (stripCustom ("custom_" ++ "15").data) with
       | some n => if 0 < n then some ((0 : Int) + n) else none
       | none => none) ∧
    calculate_expiration "banana" 0 = none :=
  ⟨(C6_amended_expiration "15" "banana" 0 (by decide) (by decide) (by decide)
      (by decide)).2.2.2.2.2.2.2.2.1,
   (C6_amended_expiration "15" "banana" 0 (by decide) (by decide) (by decide)
      (by decide)).2.2.2.2.2.2.2.2.2⟩

theorem redirect_url_db_some (store : DbStore) (code : String) (now : Int)
    (incFails : Bool) (row : DbRow) (hc : reMatchCode code.data = true)
    (hl : store.lookup code = some row) :
    redirect_url_db store code now incFails =
      match row.expires_at with
      | some e =>
          if e < now then (.expiredPage, store)
          else if incFails then (.serverError, store)
          else (.redirect row.long_url, updateClicks store code)
      | none =>
          if incFails then (.serverError, store)
          else (.redirect row.long_url, updateClicks store code) := by
  unfold redirect_url_db
  rw [hc, if_neg (by simp), hl]

theorem redirect_url_dev_some (store : DevStore) (code : String) (now : Int)
    (entry : DevEntry) (hc : reMatchCode code.data = true)
    (hl : store.lookup code = some entry) :
    redirect_url_dev store code now =
      match entry.expires_at with
      | some e =>
          if e < now then (.expiredPage, store) else (.redirect entry.long_url, store)
      | none => (.redirect entry.long_url, store) := by
  unfold redirect_url_dev
  rw [hc, if_neg (by simp), hl]

/-- C5: for a stored mapping with an expiry, resolution at time `now`
yields the dedicated expired response exactly when `now` is past the
expiry and the redirect when `now ≤ expiresAt`; a mapping without an
expiry always redirects; and the expired response is distinct from the
not-found response.  Holds identically in both storage modes (with the
click increment succeeding in database mode). -/
theorem C5_expiration_boundary (store : DbStore) (dstore : DevStore) (code : String)
    (row : DbRow) (ent : DevEntry) (now e : Int) (hc : reMatchCode code.data = true) :
    (store.lookup code = some row → row.expires_at = some e →
      (((redirect_url_db store code now false).1 = Resp.expiredPage ↔ e < now) ∧
       (now ≤ e → (redirect_url_db store code now false).1 = Resp.redirect row.long_url))) ∧
    (store.lookup code = some row → row.expires_at = none →
      (redirect_url_db store code now false).1 = Resp.redirect row.long_url) ∧
    (dstore.lookup code = some ent → ent.expires_at = some e →
      (((redirect_url_dev dstore code now).1 = Resp.expiredPage ↔ e < now) ∧
       (now ≤ e → (redirect_url_dev dstore code now).1 = Resp.redirect ent.long_url))) ∧
    (dstore.lookup code = some ent → ent.expires_at = none →
      (redirect_url_dev dstore code now).1 = Resp.redirect ent.long_url) ∧
    Resp.expiredPage ≠ Resp.notFound := by
  refine ⟨?_, ?_, ?_, ?_, by decide⟩
  · intro hl he
    rw [redirect_url_db_some store code now false row hc hl, he]
    by_cases hlt : e < now
    · simp [hlt]
    · constructor
      · simp [hlt]
      · intro _; simp [hlt]
  · intro hl he
    rw [redirect_url_db_some store code now false row hc hl, he]
    rfl
  · intro hl he
    rw [redirect_url_dev_some dstore code now ent hc hl, he]
    by_cases hlt : e < now
    · simp [hlt]
    · constructor
      · simp [hlt]
      · intro _; simp [hlt]
  · intro hl he
    rw [redirect_url_dev_some dstore code now ent hc hl, he]

/-- Witness for C5 at a concrete store, before and after expiry. -/
theorem C5_expiration_boundary_witness :
    (List.lookup "abc123" [("abc123", (⟨"https://a.com", some 100, 0⟩ : DbRow))] =
        some ⟨"https://a.com", some 100, 0⟩ →
      (⟨"https://a.com", some 100, 0⟩ : DbRow).expires_at = some 100 →
      (((redirect_url_db [("abc123", ⟨"https://a.com", some 100, 0⟩)] "abc123" 50 false).1 =
          Resp.expiredPage ↔ (100 : Int) < 50) ∧
       ((50 : Int) ≤ 100 →
        (redirect_url_db [("abc123", ⟨"https://a.com", some 100, 0⟩)] "abc123" 50 false).1 =
          Resp.redirect "https://a.com"))) ∧
    (List.lookup "abc123" [("abc123", (⟨"https://a.com", some 100, 0⟩ : DbRow))] =
        some ⟨"https://a.com", some 100, 0⟩ →
      (⟨"https://a.com", some 100, 0⟩ : DbRow).expires_at = none →
      (redirect_url_db [("abc123", ⟨"https://a.com", some 100, 0⟩)] "abc123" 50 false).1 =
        Resp.redirect "https://a.com") ∧
    (List.lookup "abc123" [("abc123", (⟨"https://a.com", some 100⟩ : DevEntry))] =
        some ⟨"https://a.com", some 100⟩ →
      (⟨"https://a.com", some 100⟩ : DevEntry).expires_at = some 100 →
      (((redirect_url_dev [("abc123", ⟨"https://a.com", some 100⟩)] "abc123" 50).1 =
          Resp.expiredPage ↔ (100 : Int) < 50) ∧
       ((50 : Int) ≤ 100 →
        (redirect_url_dev [("abc123", ⟨"https://a.com", some 100⟩)] "abc123" 50).1 =
          Resp.redirect "https://a.com"))) ∧
    (List.lookup "abc123" [("abc123", (⟨"https://a.com", some 100⟩ : DevEntry))] =
        some ⟨"https://a.com", some 100⟩ →
      (⟨"https://a.com", some 100⟩ : DevEntry).expires_at = none →
      (redirect_url_dev [("abc123", ⟨"https://a.com", some 100⟩)] "abc123" 50).1 =
        Resp.redirect "https://a.com") ∧
    Resp.expiredPage ≠ Resp.notFound :=
  C5_expiration_boundary [("abc123", ⟨"https://a.com", some 100, 0⟩)]
    [("abc123", ⟨"https://a.com", some 100⟩)] "abc123"
    ⟨"https://a.com", some 100, 0⟩ ⟨"https://a.com", some 100⟩ 50 100 (by decide)

/-- C1 counterexample: with a valid, unexpired mapping present, a
failing click-increment turns the resolution into the 500 "Server
Error" response instead of the redirect the claim requires. -/
theorem C1_counterexample_increment_failure :
    (redirect_url_db [("abc123", ⟨"https://example.com", none, 0⟩)] "abc123" 0 true).1 =
      Resp.serverError ∧
    Resp.serverError ≠ Resp.redirect "https://example.com" := by decide

/-- C1 as amended: in database mode a click-increment failure makes the
resolution of a valid, unexpired mapping fail with the 500 response
(leaving the store unchanged); only when the increment succeeds does the
resolution redirect to the stored long URL. -/
theorem C1_amended_increment_failure_fails_resolution (store : DbStore) (code : String)
    (row : DbRow) (now : Int) (hc : reMatchCode code.data = true)
    (hl : store.lookup code = some row)
    (hexp : row.expires_at = none ∨ ∃ e, row.expires_at = some e ∧ ¬ e < now) :
    (redirect_url_db store code now true).1 = Resp.serverError ∧
    (redirect_url_db store code now true).2 = store ∧
    (redirect_url_db store code now false).1 = Resp.redirect row.long_url := by
  rcases hexp with he | ⟨e, he, hlt⟩
  · rw [redirect_url_db_some store code now true row hc hl,
      redirect_url_db_some store code now false row hc hl, he]
    exact ⟨rfl, rfl, rfl⟩
  · rw [redirect_url_db_some store code now true row hc hl,
      redirect_url_db_some store code now false row hc hl, he]
    simp [hlt]

/-- Witness for C1's amended theorem at a concrete store. -/
theorem C1_amended_increment_failure_fails_resolution_witness :
    (redirect_url_db [("abc123", ⟨"https://example.com", none, 0⟩)] "abc123" 0 true).1 =
      Resp.serverError ∧
    (redirect_url_db [("abc123", ⟨"https://example.com", none, 0⟩)] "abc123" 0 true).2 =
      [("abc123", ⟨"https://example.com", none, 0⟩)] ∧
    (redirect_url_db [("abc123", ⟨"https://example.com", none, 0⟩)] "abc123" 0 false).1 =
      Resp.redirect "https://example.com" :=
  C1_amended_increment_failure_fails_resolution
    [("abc123", ⟨"https://example.com", none, 0⟩)] "abc123"
    ⟨"https://example.com", none, 0⟩ 0 (by decide) (by decide) (Or.inl rfl)

theorem shorten_url_db_custom (store : DbStore) (conc : List String) (u a t : String)
    (now : Int) (hu0 : pyStrip u = u) (ha0 : pyStrip a = a) (ht0 : pyStrip t = t)
    (hu1 : u ≠ "") (hu2 : is_valid_url u = true) (ha1 : a ≠ "")
    (ha2 : is_valid_alias a = true) :
    shorten_url_db store conc u a t now =
      (if (store.lookup a).isSome then (.aliasTaken, store)
       else if conc.contains a then (.dbError, store)
       else (.success a u (calculate_expiration t now),
             (a, ⟨u, calculate_expiration t now, 0⟩) :: store)) := by
  have hcond1 : ¬(u = "" ∨ is_valid_url u = false) := by
    rintro (h | h)
    · exact hu1 h
    · rw [hu2] at h; simp at h
  have hcond2 : ¬(a ≠ "" ∧ is_valid_alias a = false) := by
    rintro ⟨_, h⟩
    rw [ha2] at h; simp at h
  unfold shorten_url_db
  simp only [hu0, ha0, ht0]
  rw [if_neg hcond1, if_neg hcond2, if_pos ha1]

theorem shorten_url_dev_custom (store : DevStore) (u a t : String)
    (now : Int) (hu0 : pyStrip u = u) (ha0 : pyStrip a = a) (ht0 : pyStrip t = t)
    (hu1 : u ≠ "") (hu2 : is_valid_url u = true) (ha1 : a ≠ "")
    (ha2 : is_valid_alias a = true) :
    shorten_url_dev store u a t now =
      (if (store.lookup a).isSome then (.aliasTaken, store)
       else (.success a u (calculate_expiration t now),
             (a, ⟨u, calculate_expiration t now⟩) :: store)) := by
  have hcond1 : ¬(u = "" ∨ is_valid_url u = false) := by
    rintro (h | h)
    · exact hu1 h
    · rw [hu2] at h; simp at h
  have hcond2 : ¬(a ≠ "" ∧ is_valid_alias a = false) := by
    rintro ⟨_, h⟩
    rw [ha2] at h; simp at h
  unfold shorten_url_dev
  simp only [hu0, ha0, ht0]
  rw [if_neg hcond1, if_neg hcond2, if_pos ha1]

theorem shorten_url_db_auto (store : DbStore) (conc : List String) (u t : String)
    (now : Int) (hu0 : pyStrip u = u) (ht0 : pyStrip t = t)
    (hu1 : u ≠ "") (hu2 : is_valid_url u = true) :
    shorten_url_db store conc u "" t now =
      dbAutoTry store conc u (calculate_expiration t now) [0, 1, 2, 3, 4] := by
  have hcond1 : ¬(u = "" ∨ is_valid_url u = false) := by
    rintro (h | h)
    · exact hu1 h
    · rw [hu2] at h; simp at h
  unfold shorten_url_db
  simp only [hu0, ht0, show pyStrip "" = "" from rfl]
  rw [if_neg hcond1, if_neg (by rintro ⟨h, _⟩; exact h rfl), if_neg (by simp)]

theorem shorten_url_dev_auto (store : DevStore) (u t : String)
    (now : Int) (hu0 : pyStrip u = u) (ht0 : pyStrip t = t)
    (hu1 : u ≠ "") (hu2 : is_valid_url u = true) :
    shorten_url_dev store u "" t now =
      devAutoTry store u (calculate_expiration t now) [0, 1, 2, 3, 4] := by
  have hcond1 : ¬(u = "" ∨ is_valid_url u = false) := by
    rintro (h | h)
    · exact hu1 h
    · rw [hu2] at h; simp at h
  unfold shorten_url_dev
  simp only [hu0, ht0, show pyStrip "" = "" from rfl]
  rw [if_neg hcond1, if_neg (by rintro ⟨h, _⟩; exact h rfl), if_neg (by simp)]

/-- C2 counterexample: with an empty committed store and the alias
`"blog"` inserted concurrently between the pre-check and the insert,
the custom-alias path reports the generic 500 "Database error occurred"
(the `UniqueViolation` escapes to the outer `except Exception`), not
the "Alias already taken" response the claim requires. -/
theorem C2_counterexample_race_generic_error :
    (shorten_url_db [] ["blog"] "https://a.com" "blog" "never" 0).1 = ShortenResp.dbError ∧
    ShortenResp.dbError ≠ ShortenResp.aliasTaken := by decide

/-- C2 as amended: when the pre-insert check finds the alias the call
reports AliasTaken and leaves the store unchanged; when the check
misses it and the insert hits the store's uniqueness guard (the race),
the call reports the generic database error — not AliasTaken — still
leaving the store unchanged; with no conflict at all the insert
succeeds.  In development mode the check-then-insert is atomic, so only
the pre-check case exists. -/
theorem C2_amended_alias_conflict (store : DbStore) (dstore : DevStore)
    (conc : List String) (u a t : String) (now : Int)
    (hu0 : pyStrip u = u) (ha0 : pyStrip a = a) (ht0 : pyStrip t = t)
    (hu1 : u ≠ "") (hu2 : is_valid_url u = true) (ha1 : a ≠ "")
    (ha2 : is_valid_alias a = true) :
    ((store.lookup a).isSome = true →
      shorten_url_db store conc u a t now = (.aliasTaken, store)) ∧
    (store.lookup a = none → conc.contains a = true →
      shorten_url_db store conc u a t now = (.dbError, store)) ∧
    (store.lookup a = none → conc.contains a = false →
      shorten_url_db store conc u a t now =
        (.success a u (calculate_expiration t now),
         (a, ⟨u, calculate_expiration t now, 0⟩) :: store)) ∧
    ((dstore.lookup a).isSome = true →
      shorten_url_dev dstore u a t now = (.aliasTaken, dstore)) ∧
    (dstore.lookup a = none →
      shorten_url_dev dstore u a t now =
        (.success a u (calculate_expiration t now),
         (a, ⟨u, calculate_expiration t now⟩) :: dstore)) ∧
    ShortenResp.dbError ≠ ShortenResp.aliasTaken := by
  refine ⟨?_, ?_, ?_, ?_, ?_, by decide⟩
  · intro hl
    rw [shorten_url_db_custom store conc u a t now hu0 ha0 ht0 hu1 hu2 ha1 ha2,
      if_pos hl]
  · intro hl hcc
    rw [shorten_url_db_custom store conc u a t now hu0 ha0 ht0 hu1 hu2 ha1 ha2,
      if_neg (by simp [hl]), if_pos hcc]
  · intro hl hcc
    rw [shorten_url_db_custom store conc u a t now hu0 ha0 ht0 hu1 hu2 ha1 ha2,
      if_neg (by simp [hl]), if_neg (by simpa using hcc)]
  · intro hl
    rw [shorten_url_dev_custom dstore u a t now hu0 ha0 ht0 hu1 hu2 ha1 ha2, if_pos hl]
  · intro hl
    rw [shorten_url_dev_custom dstore u a t now hu0 ha0 ht0 hu1 hu2 ha1 ha2,
      if_neg (by simp [hl])]

/-- Witness for C2's amended theorem: pre-check detection yields
AliasTaken with the store unchanged. -/
theorem C2_amended_alias_conflict_witness :
    shorten_url_db [("blog", ⟨"https://a.com", none, 0⟩)] [] "https://b.com" "blog" "never" 0 =
      (.aliasTaken, [("blog", ⟨"https://a.com", none, 0⟩)]) :=
  (C2_amended_alias_conflict [("blog", ⟨"https://a.com", none, 0⟩)] [] []
    "https://b.com" "blog" "never" 0 rfl rfl rfl (by decide) (by decide) (by decide)
    (by decide)).1 (by decide)

/-- C4: a Shorten call without an alias tries at most 5 codes, with
salts `"", "1", "2", "3", "4"` in that order; the result is determined
by the first attempt index whose code is free (that code is inserted
and returned), and if all 5 collide the call fails with the
generation-exhausted error.  Holds in both storage modes. -/
theorem C4_auto_generation_five_salts (store : DbStore) (conc : List String)
    (dstore : DevStore) (u t : String) (now : Int)
    (hu0 : pyStrip u = u) (ht0 : pyStrip t = t)
    (hu1 : u ≠ "") (hu2 : is_valid_url u = true) :
    [saltOf 0, saltOf 1, saltOf 2, saltOf 3, saltOf 4] = ["", "1", "2", "3", "4"] ∧
    shorten_url_db store conc u "" t now =
      (match ([0, 1, 2, 3, 4] : List Nat).find?
          (fun i => !dbTaken store conc (generate_short_url u (saltOf i))) with
       | some i =>
          (.success (generate_short_url u (saltOf i)) u (calculate_expiration t now),
           (generate_short_url u (saltOf i), ⟨u, calculate_expiration t now, 0⟩) :: store)
       | none => (.genExhausted, store)) ∧
    shorten_url_dev dstore u "" t now =
      (match ([0, 1, 2, 3, 4] : List Nat).find?
          (fun i => !devTaken dstore (generate_short_url u (saltOf i))) with
       | some i =>
          (.success (generate_short_url u (saltOf i)) u (calculate_expiration t now),
           (generate_short_url u (saltOf i), ⟨u, calculate_expiration t now⟩) :: dstore)
       | none => (.genExhausted, dstore)) := by
  refine ⟨by decide, ?_, ?_⟩
  · rw [shorten_url_db_auto store conc u t now hu0 ht0 hu1 hu2]
    exact dbAutoTry_eq_find store conc u (calculate_expiration t now) [0, 1, 2, 3, 4]
  · rw [shorten_url_dev_auto dstore u t now hu0 ht0 hu1 hu2]
    exact devAutoTry_eq_find dstore u (calculate_expiration t now) [0, 1, 2, 3, 4]

/-- Witness for C4 at a concrete input: on an empty store the very
first salt (the empty string) is free, and its code is inserted. -/
theorem C4_auto_generation_five_salts_witness :
    shorten_url_db [] [] "https://example.com" "" "never" 0 =
      (.success "EAaArV" "https://example.com" none,
       [("EAaArV", ⟨"https://example.com", none, 0⟩)]) :=
  ((C4_auto_generation_five_salts [] [] [] "https://example.com" "never" 0 rfl rfl
      (by decide) (by decide)).2.1).trans (by decide)

/-- N successive resolutions of the same code against the durable
store, each with a succeeding click increment. -/
def resolveNdb (store : DbStore) (code : String) (now : Int) : Nat → DbStore
  | 0 => store
  | n + 1 => (redirect_url_db (resolveNdb store code now n) code now false).2

theorem resolveNdb_clicks (store : DbStore) (code : String) (row : DbRow) (now : Int)
    (hc : reMatchCode code.data = true) (hl : store.lookup code = some row)
    (hexp : row.expires_at = none ∨ ∃ e, row.expires_at = some e ∧ ¬ e < now) :
    ∀ N : Nat, (resolveNdb store code now N).lookup code =
      some ⟨row.long_url, row.expires_at, row.clicks + N⟩ := by
  intro N
  induction N with
  | zero => simpa [resolveNdb] using hl
  | succ n ih =>
      show ((redirect_url_db (resolveNdb store code now n) code now false).2).lookup code = _
      rw [redirect_url_db_some _ code now false _ hc ih]
      rcases hexp with he | ⟨e, he, hlt⟩
      · simp only [he]
        rw [if_neg (by simp)]
        rw [show ((Resp.redirect row.long_url,
            updateClicks (resolveNdb store code now n) code)).2 =
          updateClicks (resolveNdb store code now n) code from rfl]
        rw [updateClicks_lookup_self, ih]
        simp only [Option.map_some, he]
        rfl
      · simp only [he]
        rw [if_neg hlt, if_neg (by simp)]
        rw [show ((Resp.redirect row.long_url,
            updateClicks (resolveNdb store code now n) code)).2 =
          updateClicks (resolveNdb store code now n) code from rfl]
        rw [updateClicks_lookup_self, ih]
        simp only [Option.map_some, he]
        rfl

theorem resolveNdb_redirects (store : DbStore) (code : String) (row : DbRow) (now : Int)
    (hc : reMatchCode code.data = true) (hl : store.lookup code = some row)
    (hexp : row.expires_at = none ∨ ∃ e, row.expires_at = some e ∧ ¬ e < now) :
    ∀ N : Nat, (redirect_url_db (resolveNdb store code now N) code now false).1 =
      Resp.redirect row.long_url := by
  intro N
  rw [redirect_url_db_some _ code now false _ hc
    (resolveNdb_clicks store code row now hc hl hexp N)]
  rcases hexp with he | ⟨e, he, hlt⟩
  · simp only [he]
    rw [if_neg (by simp)]
  · simp only [he]
    rw [if_neg hlt, if_neg (by simp)]

theorem redirect_url_dev_state_unchanged (store : DevStore) (code : String) (now : Int) :
    (redirect_url_dev store code now).2 = store := by
  unfold redirect_url_dev
  split
  · rfl
  · split
    · rfl
    · split
      · split <;> rfl
      · rfl

theorem dbAutoTry_state_shape (store : DbStore) (conc : List String) (u : String)
    (ea : Option Int) (l : List Nat) :
    (dbAutoTry store conc u ea l).2 = store ∨
      ∃ c, (dbAutoTry store conc u ea l).2 = (c, ⟨u, ea, 0⟩) :: store := by
  induction l with
  | nil => exact Or.inl rfl
  | cons a rest ih =>
      cases hc : dbTaken store conc (generate_short_url u (saltOf a)) with
      | true =>
          simp only [dbAutoTry]
          rw [if_pos hc]
          exact ih
      | false =>
          simp only [dbAutoTry]
          rw [if_neg (by simp [hc])]
          exact Or.inr ⟨generate_short_url u (saltOf a), rfl⟩

/-- C3 counterexample: in the ephemeral variant a successful resolution
returns the redirect but leaves the store byte-for-byte unchanged — the
`DEV_STORAGE` entry has no clicks field and nothing is incremented, so
after N successful resolutions no counter equals N and the two variants
do not satisfy the claimed identical clicks invariant. -/
theorem C3_counterexample_ephemeral_no_clicks :
    (redirect_url_dev [("abc123", ⟨"https://example.com", none⟩)] "abc123" 0).1 =
      Resp.redirect "https://example.com" ∧
    (redirect_url_dev [("abc123", ⟨"https://example.com", none⟩)] "abc123" 0).2 =
      [("abc123", ⟨"https://example.com", none⟩)] := by decide

/-- C3 as amended: in the durable variant rows are created with
`clicks = 0` (the inserts of the auto path write 0 explicitly — the
column default) and each successful resolution increments the counter
exactly once, so after N successful resolutions of a mapping created
with `clicks = 0` the counter equals N; the ephemeral variant stores no
clicks counter at all, and its resolutions leave the store unchanged. -/
theorem C3_amended_clicks_counter (store : DbStore) (code : String) (row : DbRow)
    (now : Int) (dstore : DevStore) (dcode : String) (conc : List String)
    (u : String) (ea : Option Int) (l : List Nat)
    (hc : reMatchCode code.data = true) (hl : store.lookup code = some row)
    (h0 : row.clicks = 0)
    (hexp : row.expires_at = none ∨ ∃ e, row.expires_at = some e ∧ ¬ e < now) :
    (∀ N : Nat,
      (resolveNdb store code now N).lookup code =
        some ⟨row.long_url, row.expires_at, N⟩ ∧
      (redirect_url_db (resolveNdb store code now N) code now false).1 =
        Resp.redirect row.long_url) ∧
    (redirect_url_dev dstore dcode now).2 = dstore ∧
    ((dbAutoTry store conc u ea l).2 = store ∨
      ∃ c, (dbAutoTry store conc u ea l).2 = (c, ⟨u, ea, 0⟩) :: store) := by
  refine ⟨?_, redirect_url_dev_state_unchanged dstore dcode now,
    dbAutoTry_state_shape store conc u ea l⟩
  intro N
  constructor
  · have := resolveNdb_clicks store code row now hc hl hexp N
    rwa [h0, Nat.zero_add] at this
  · exact resolveNdb_redirects store code row now hc hl hexp N

/-- Witness for C3's amended theorem: three successful resolutions of a
fresh mapping leave its durable click counter at 3. -/
theorem C3_amended_clicks_counter_witness :
    (resolveNdb [("abc123", ⟨"https://example.com", none, 0⟩)] "abc123" 0 3).lookup "abc123" =
      some ⟨"https://example.com", none, 3⟩ :=
  ((C3_amended_clicks_counter [("abc123", ⟨"https://example.com", none, 0⟩)] "abc123"
      ⟨"https://example.com", none, 0⟩ 0 [] "x" [] "y" none [] (by decide) (by decide)
      rfl (Or.inl rfl)).1 3).1

theorem shorten_url_dev_frame (dstore : DevStore) (uf af tf : String) (now : Int)
    (code : String) (dent : DevEntry) (hd : dstore.lookup code = some dent) :
    ((shorten_url_dev dstore uf af tf now).2).lookup code = some dent := by
  simp only [shorten_url_dev]
  split_ifs with h1 h2 h3 h4
  · exact hd
  · exact hd
  · exact hd
  · have hne : (code == pyStrip af) = false := by
      simp only [beq_eq_false_iff_ne, ne_eq]
      intro he
      rw [← he, hd] at h4
      simp at h4
    simp only [List.lookup_cons, hne]
    exact hd
  · exact devAutoTry_frame dstore (pyStrip uf) _ _ code dent hd

theorem shorten_url_db_frame (store : DbStore) (conc : List String) (uf af tf : String)
    (now : Int) (code : String) (row : DbRow) (hb : store.lookup code = some row) :
    ((shorten_url_db store conc uf af tf now).2).lookup code = some row := by
  simp only [shorten_url_db]
  split_ifs with h1 h2 h3 h4 h5
  · exact hb
  · exact hb
  · exact hb
  · exact hb
  · have hne : (code == pyStrip af) = false := by
      simp only [beq_eq_false_iff_ne, ne_eq]
      intro he
      rw [← he, hb] at h4
      simp at h4
    simp only [List.lookup_cons, hne]
    exact hb
  · exact dbAutoTry_frame store conc (pyStrip uf) _ _ code row hb

theorem redirect_url_db_state (store : DbStore) (c2 : String) (now : Int)
    (incFails : Bool) :
    (redirect_url_db store c2 now incFails).2 = store ∨
      (redirect_url_db store c2 now incFails).2 = updateClicks store c2 := by
  unfold redirect_url_db
  split
  · exact Or.inl rfl
  · split
    · exact Or.inl rfl
    · split
      · split
        · exact Or.inl rfl
        · split
          · exact Or.inl rfl
          · exact Or.inr rfl
      · split
        · exact Or.inl rfl
        · exact Or.inr rfl

/-- C9: no operation mutates the `long_url`, key or `expires_at` of an
existing mapping.  Shorten (either mode, any inputs) leaves every
existing entry untouched; ephemeral resolution leaves the whole store
untouched; durable resolution can change an existing row only by
incrementing its `clicks`, preserving `long_url` and `expires_at`. -/
theorem C9_mappings_write_once (dstore : DevStore) (store : DbStore) (conc : List String)
    (uf af tf code c2 : String) (now : Int) (incFails : Bool)
    (dent : DevEntry) (row : DbRow)
    (hd : dstore.lookup code = some dent) (hb : store.lookup code = some row) :
    ((shorten_url_dev dstore uf af tf now).2).lookup code = some dent ∧
    ((shorten_url_db store conc uf af tf now).2).lookup code = some row ∧
    (redirect_url_dev dstore c2 now).2 = dstore ∧
    (∃ row2, ((redirect_url_db store c2 now incFails).2).lookup code = some row2 ∧
      row2.long_url = row.long_url ∧ row2.expires_at = row.expires_at) := by
  refine ⟨shorten_url_dev_frame dstore uf af tf now code dent hd,
    shorten_url_db_frame store conc uf af tf now code row hb,
    redirect_url_dev_state_unchanged dstore c2 now, ?_⟩
  rcases redirect_url_db_state store c2 now incFails with h | h
  · exact ⟨row, by rw [h]; exact hb, rfl, rfl⟩
  · by_cases hcc : code = c2
    · subst hcc
      refine ⟨⟨row.long_url, row.expires_at, row.clicks + 1⟩, ?_, rfl, rfl⟩
      rw [h, updateClicks_lookup_self, hb]
      rfl
    · exact ⟨row, by rw [h, updateClicks_lookup_ne store c2 code hcc]; exact hb, rfl, rfl⟩

/-- Witness for C9 at concrete stores and inputs. -/
theorem C9_mappings_write_once_witness :
    ((shorten_url_dev [("blog", ⟨"https://a.com", none⟩)] "https://b.com" "" "never" 0).2).lookup
        "blog" = some ⟨"https://a.com", none⟩ ∧
    ((shorten_url_db [("blog", ⟨"https://a.com", none, 0⟩)] [] "https://b.com" "" "never"
        0).2).lookup "blog" = some ⟨"https://a.com", none, 0⟩ ∧
    (redirect_url_dev [("blog", ⟨"https://a.com", none⟩)] "blog" 0).2 =
      [("blog", ⟨"https://a.com", none⟩)] ∧
    (∃ row2,
      ((redirect_url_db [("blog", ⟨"https://a.com", none, 0⟩)] "blog" 0 false).2).lookup
          "blog" = some row2 ∧
      row2.long_url = (⟨"https://a.com", none, 0⟩ : DbRow).long_url ∧
      row2.expires_at = (⟨"https://a.com", none, 0⟩ : DbRow).expires_at) :=
  C9_mappings_write_once [("blog", ⟨"https://a.com", none⟩)]
    [("blog", ⟨"https://a.com", none, 0⟩)] [] "https://b.com" "" "never" "blog" "blog" 0 false
    ⟨"https://a.com", none⟩ ⟨"https://a.com", none, 0⟩ (by decide) (by decide)
